import Mathlib

/-!
Shallow embedding of the parallax-view-portal processing core
(`services/api/app/services/processor.py` and
`services/api/app/services/database.py`), together with theorems checking
the natural-language specification against it.

Conventions of the embedding:
* Images are represented by their dimensions; derived single-channel images
  are pixel functions `Nat -> Nat -> ...` over coordinates `(x, y)`.
* Python float arithmetic is embedded as exact arithmetic: rationals where
  only field operations occur, and real numbers (with `Real.sqrt`) for the
  depth formula.  `int()` truncation of the non-negative depth values is the
  integer floor.
* Fallible code returns `Except String`; a raised Python exception is
  `Except.error` carrying the exception text.
* External collaborators (the SQLite ledger, the blob store, the remote
  providers) are modelled by environment records: a provider attempt is an
  `Except String` value saying whether the call would raise and, when not,
  which image it returns.
-/

namespace ParallaxPortal

/-- Embeds `JobStatus` from `app/models/job.py`. -/
inductive JobStatus where
  | pending
  | processing
  | completed
  | failed
deriving DecidableEq, Repr

/-- Embeds `InputType` from `app/models/job.py`. -/
inductive InputType where
  | object
  | landscape
  | unknown
deriving DecidableEq, Repr

/-- A job row of the `jobs` table (`database.py`, `init_db`): the fields a
`JobRecord` carries are exactly the columns of the table.  `progress` is the
SQLite INTEGER column, `outputs` the JSON object column rendered as an
association list. -/
structure JobRecord where
  id : String
  status : JobStatus
  created_at : String
  updated_at : String
  input_type : Option InputType
  progress : Int
  error : Option String
  original_filename : Option String
  outputs : Option (List (String × String))
deriving DecidableEq, Repr

/-- Embeds `database.create_job`: the INSERT gives the row status `pending`,
progress 0 (column default), no error and no outputs, and both timestamps
equal to `now`. -/
def create_job (job_id : String) (filename : String)
    (input_type_hint : Option InputType) (now : String) : JobRecord :=
  { id := job_id
    status := JobStatus.pending
    created_at := now
    updated_at := now
    input_type := input_type_hint
    progress := 0
    error := none
    original_filename := some filename
    outputs := none }

/-- Embeds `database.update_job` acting on the row it addresses.  Each
parameter that is `none` contributes no SET clause; if every parameter is
`none` the function returns `False` before touching the database, otherwise
the named fields and `updated_at` are written and the function returns
whether a row matched (here: the addressed row exists, so `true`). -/
def update_job (job : JobRecord) (status : Option JobStatus)
    (input_type : Option InputType) (progress : Option Int)
    (error : Option String) (outputs : Option (List (String × String)))
    (now : String) : JobRecord × Bool :=
  if status = none ∧ input_type = none ∧ progress = none ∧ error = none ∧
      outputs = none then
    (job, false)
  else
    ({ job with
        status := status.getD job.status
        input_type := match input_type with
          | some t => some t
          | none => job.input_type
        progress := progress.getD job.progress
        error := match error with
          | some e => some e
          | none => job.error
        outputs := match outputs with
          | some o => some o
          | none => job.outputs
        updated_at := now },
      true)

/-- One call to `db.update_job` as issued by the pipeline: the argument each
keyword parameter of `update_job` received (`none` = parameter omitted). -/
structure UpdateCall where
  status : Option JobStatus
  input_type : Option InputType
  progress : Option Int
  error : Option String
  outputs : Option (List (String × String))
deriving DecidableEq, Repr

/-- Applies one recorded ledger write to a job row through `update_job`. -/
def applyWrite (job : JobRecord) (u : UpdateCall) (now : String) : JobRecord :=
  (update_job job u.status u.input_type u.progress u.error u.outputs now).1

/-- States of a job row as a sequence of ledger writes is applied, initial
row included. -/
def replayRecords (job : JobRecord) (ws : List UpdateCall) (now : String) :
    List JobRecord :=
  ws.scanl (fun r u => applyWrite r u now) job

/-- Embeds `processor.classify_image` for an image of size `w`×`h`.
`hfToken` is whether `HF_API_TOKEN` is set; `hfClassify` is the behaviour
of `classify_with_hf` when it is invoked (`Except.error` = the call raises,
which `classify_image` swallows before falling through to the default).
The aspect-ratio float `width / height` is embedded as the exact rational. -/
def classify_image (hfToken : Bool) (hfClassify : Except String InputType)
    (w h : Nat) : InputType :=
  let aspect : ℚ := (w : ℚ) / (h : ℚ)
  if aspect > 1.5 then InputType.landscape
  else if aspect < 0.75 then InputType.object
  else if hfToken then
    match hfClassify with
    | Except.ok t => t
    | Except.error _ => InputType.object
  else InputType.object

/-- Least `n` with `a ≤ b * n ^ 2` (for `b > 0`), that is the ceiling of
`Real.sqrt a / Real.sqrt b`; theorem `ceilSqrtDiv_eq_ceil` below proves the
correspondence.  This is the executable encoding of the square-root ratio
appearing in the fallback depth formula. -/
def ceilSqrtDiv (a b : Nat) : Nat :=
  if hb : 0 < b then
    Nat.find (show ∃ n, a ≤ b * n ^ 2 from
      ⟨a, le_trans (Nat.le_self_pow (by norm_num) a)
        (Nat.le_mul_of_pos_left _ hb)⟩)
  else 0

/-- Squared Euclidean distance of pixel `(x, y)` from the integer centre
`(w / 2, h / 2)` used by `generate_fallback_depth` (Python `//` integer
division; the squares are the exact `(x - center_x) ** 2 + ...`). -/
def distSq (w h x y : Nat) : Nat :=
  ((x : Int) - (w / 2 : Nat)).natAbs ^ 2 + ((y : Int) - (h / 2 : Nat)).natAbs ^ 2

/-- Squared centre-to-corner distance `center_x ** 2 + center_y ** 2` whose
square root is `max_dist` in `generate_fallback_depth`. -/
def maxDistSq (w h : Nat) : Nat :=
  (w / 2) ^ 2 + (h / 2) ^ 2

/-- Pixel value of the fallback depth map:
`int(255 * (1 - dist / max_dist))`.  The non-negative real value's
truncation is its floor, and the floor of `255 - 255 * sqrt(distSq) /
sqrt(maxDistSq)` is `255 - ceilSqrtDiv (255 ^ 2 * distSq) maxDistSq`; the
correspondence with the real-number formula is proved below. -/
def fallbackDepthValue (w h x y : Nat) : Int :=
  255 - (ceilSqrtDiv (255 ^ 2 * distSq w h x y) (maxDistSq w h) : Int)

/-- Embeds `processor.generate_fallback_depth`.  When the image has at least
one pixel and `max_dist` is zero (which happens exactly for a 1×1 image),
the first loop iteration evaluates `dist / max_dist` with `max_dist == 0.0`
and Python raises `ZeroDivisionError("float division by zero")`; otherwise
the full pixel grid is produced. -/
def generate_fallback_depth (w h : Nat) :
    Except String (Nat → Nat → Int) :=
  if 0 < w ∧ 0 < h ∧ maxDistSq w h = 0 then
    Except.error "float division by zero"
  else
    Except.ok (fallbackDepthValue w h)

/-- Collaborator behaviour seen by `generate_depth_map`: whether each API
token is configured, and what the corresponding provider call would do when
attempted (`Except.error` = the attempt raises or fails, `Except.ok` = the
image it returns). -/
structure DepthEnv where
  replicateToken : Bool
  hfToken : Bool
  replicateDepth : Except String (Nat → Nat → Int)
  hfDepth : Except String (Nat → Nat → Int)
deriving Inhabited

/-- Embeds `processor.generate_depth_map`: try Replicate when its token is
configured, swallowing any exception; then Hugging Face when its token is
configured, swallowing any exception; finally the local fallback, whose
outcome (including the 1×1 `ZeroDivisionError`) propagates. -/
def generate_depth_map (env : DepthEnv) (w h : Nat) :
    Except String (Nat → Nat → Int) :=
  match env.replicateToken, env.replicateDepth with
  | true, Except.ok img => Except.ok img
  | _, _ =>
    match env.hfToken, env.hfDepth with
    | true, Except.ok img => Except.ok img
    | _, _ => generate_fallback_depth w h

/-- Pixel value of the fallback mask (`generate_fallback_mask` loop body):
255 where `dx * dx + dy * dy <= 1` with `dx = (x - center_x) / (width *
0.4)` and `dy = (y - center_y) / (height * 0.4)`, else the 0 the image was
initialised with.  Float arithmetic is embedded as exact rationals. -/
def fallbackMaskValue (w h x y : Nat) : Nat :=
  let dx : ℚ := ((x : ℚ) - (w / 2 : Nat)) / ((w : ℚ) * 0.4)
  let dy : ℚ := ((y : ℚ) - (h / 2 : Nat)) / ((h : ℚ) * 0.4)
  if dx * dx + dy * dy ≤ 1 then 255 else 0

/-- Embeds `processor.generate_fallback_mask` as the pixel grid of
`fallbackMaskValue`; the loop never divides by zero (the radii are `0.4 * w`
and `0.4 * h`, nonzero whenever a pixel exists), so the call is total. -/
def generate_fallback_mask (w h : Nat) : Nat → Nat → Nat :=
  fun x y => fallbackMaskValue w h x y

/-- Embeds `processor.generate_mask_replicate`, whose body is currently just
`return generate_fallback_mask(image)` (the SAM integration is a stub). -/
def generate_mask_replicate (w h : Nat) : Nat → Nat → Nat :=
  generate_fallback_mask w h

/-- Embeds `processor.generate_mask`: with a Replicate token it calls
`generate_mask_replicate`, otherwise the fallback.  The `except` around the
Replicate branch is dead code in the embedding because
`generate_mask_replicate` is a total call to the local fallback. -/
def generate_mask (replicateToken : Bool) (w h : Nat) : Nat → Nat → Nat :=
  if replicateToken then generate_mask_replicate w h
  else generate_fallback_mask w h

/-- Environment of one `process_image` run: the inputs of the call, the
state of the blob store, the provider configuration and behaviour, and the
asset ids the three `db.create_asset` calls would mint.  `upload_path` is
the rendered `UPLOADS_DIR / job_id / filename` path text. -/
structure PipelineEnv where
  uploadExists : Bool
  upload_path : String
  width : Nat
  height : Nat
  hint : Option InputType
  hfToken : Bool
  hfClassify : Except String InputType
  replicateToken : Bool
  replicateDepth : Except String (Nat → Nat → Int)
  hfDepth : Except String (Nat → Nat → Int)
  colorAssetId : String
  depthAssetId : String
  maskAssetId : String

/-- Provider environment `generate_depth_map` sees inside the pipeline. -/
def PipelineEnv.depthEnv (env : PipelineEnv) : DepthEnv :=
  { replicateToken := env.replicateToken
    hfToken := env.hfToken
    replicateDepth := env.replicateDepth
    hfDepth := env.hfDepth }

/-- Input type the pipeline works with: the hint verbatim when one was
supplied (any `InputType` value is truthy in Python), else the classifier's
result. -/
def effectiveInputType (env : PipelineEnv) : InputType :=
  match env.hint with
  | some t => t
  | none => classify_image env.hfToken env.hfClassify env.width env.height

/-- Observable outcome of one `process_image` run: the `db.update_job`
calls in order, the asset types `db.create_asset` was called with in order,
and whether the coroutine returned normally or re-raised an exception. -/
structure PipelineResult where
  writes : List UpdateCall
  assets : List String
  outcome : Except String Unit

/-- The ledger write `update_job(job_id, status=PROCESSING, progress=10)`
that opens the pipeline. -/
def startWrite : UpdateCall :=
  ⟨some JobStatus.processing, none, some 10, none, none⟩

/-- A ledger write `update_job(job_id, progress=p)` touching only
progress. -/
def progressWrite (p : Int) : UpdateCall :=
  ⟨none, none, some p, none, none⟩

/-- The ledger write `update_job(job_id, input_type=t, progress=30)` that
persists the classification. -/
def typeWrite (t : InputType) : UpdateCall :=
  ⟨none, some t, some 30, none, none⟩

/-- The failure-path write `update_job(job_id, status=FAILED,
error=str(e))`: no progress, no outputs. -/
def failWrite (e : String) : UpdateCall :=
  ⟨some JobStatus.failed, none, none, some e, none⟩

/-- The completion write `update_job(job_id, status=COMPLETED,
progress=100, outputs=outputs)`. -/
def completeWrite (outs : List (String × String)) : UpdateCall :=
  ⟨some JobStatus.completed, none, some 100, none, some outs⟩

/-- Embeds `processor.process_image`.  The `try` body issues, in order, the
ledger writes (processing, 10), (20), (`input_type`, 30), (40), then the
depth chain, then (60), the color and depth assets, conditionally (80) and
the mask asset for Object inputs, and finally (completed, 100, outputs).
Its two internally generated exceptions are the missing-upload
`FileNotFoundError` and the 1×1 fallback-depth `ZeroDivisionError`; either
lands in the `except` clause, which writes (failed, error text) — touching
neither progress nor outputs — and re-raises.  Ledger and blob-store writes
themselves are the collaborator contracts of spec §6 and are modelled as
succeeding. -/
def process_image (env : PipelineEnv) : PipelineResult :=
  if env.uploadExists = false then
    let msg := "Upload not found: " ++ env.upload_path
    { writes := [startWrite, failWrite msg]
      assets := []
      outcome := Except.error msg }
  else
    let t := effectiveInputType env
    match generate_depth_map env.depthEnv env.width env.height with
    | Except.error e =>
      { writes := [startWrite, progressWrite 20, typeWrite t,
          progressWrite 40, failWrite e]
        assets := []
        outcome := Except.error e }
    | Except.ok _ =>
      let base : List (String × String) :=
        [("color", env.colorAssetId), ("depth", env.depthAssetId)]
      if t = InputType.object then
        { writes := [startWrite, progressWrite 20, typeWrite t,
            progressWrite 40, progressWrite 60, progressWrite 80,
            completeWrite (base ++ [("mask", env.maskAssetId)])]
          assets := ["color", "depth", "mask"]
          outcome := Except.ok () }
      else
        { writes := [startWrite, progressWrite 20, typeWrite t,
            progressWrite 40, progressWrite 60, completeWrite base]
          assets := ["color", "depth"]
          outcome := Except.ok () }

/-- An attempt of the provider chain does not deliver an image: the token is
not configured, or the call raised (an explicit failure status, transport
error or timeout all surface as an exception). -/
def attemptFails (tok : Bool) (r : Except String (Nat → Nat → Int)) : Prop :=
  tok = false ∨ ∃ e, r = Except.error e

/-- A pipeline environment with no provider credential configured, as in an
offline or test deployment. -/
def envNoProviders (ue : Bool) (w h : Nat) (hint : Option InputType) :
    PipelineEnv :=
  { uploadExists := ue
    upload_path := "/data/uploads/j1/photo.png"
    width := w
    height := h
    hint := hint
    hfToken := false
    hfClassify := Except.error "no token"
    replicateToken := false
    replicateDepth := Except.error "no token"
    hfDepth := Except.error "no token"
    colorAssetId := "color-id"
    depthAssetId := "depth-id"
    maskAssetId := "mask-id" }

theorem maxDistSq_eq_zero_iff (w h : Nat) :
    maxDistSq w h = 0 ↔ w ≤ 1 ∧ h ≤ 1 := by
  unfold maxDistSq
  rw [Nat.add_eq_zero, pow_eq_zero_iff (two_ne_zero), pow_eq_zero_iff (two_ne_zero)]
  omega

theorem generate_fallback_depth_ok (w h : Nat) (hne : ¬ (w = 1 ∧ h = 1)) :
    generate_fallback_depth w h = Except.ok (fallbackDepthValue w h) := by
  unfold generate_fallback_depth
  rw [if_neg]
  rintro ⟨hw, hh, hz⟩
  rw [maxDistSq_eq_zero_iff] at hz
  exact hne ⟨by omega, by omega⟩

/-- C9: for every input image and every provider-credential configuration,
`generate_mask` returns exactly the image `generate_fallback_mask` would
produce, because the Replicate mask path (`generate_mask_replicate`) falls
through to the local fallback unconditionally. -/
theorem generate_mask_eq_fallback (replicateToken : Bool) (w h : Nat) :
    generate_mask replicateToken w h = generate_fallback_mask w h := by
  cases replicateToken <;> rfl

/-- C8: the local fallback depth computation is not infallible — on a 1×1
image `max_dist` is `sqrt(0) = 0` and the first pixel's
`dist / max_dist` raises `ZeroDivisionError("float division by zero")`, so
`generate_fallback_depth` fails exactly where the spec says it must
succeed. -/
theorem fallback_depth_one_by_one_raises :
    generate_fallback_depth 1 1 = Except.error "float division by zero" := by
  rfl

/-- C6 counterexample: at width 1 and height 1 (which the claim's
quantifier `w ≥ 1`, `h ≥ 1` includes) `generate_fallback_depth` produces no
image at all: it raises a division-by-zero error instead. -/
theorem fallback_depth_one_by_one_no_image :
    ¬ ∃ px, generate_fallback_depth 1 1 = Except.ok px := by
  rintro ⟨px, hpx⟩
  have hraise : generate_fallback_depth 1 1 =
      Except.error "float division by zero" := rfl
  rw [hraise] at hpx
  exact Except.noConfusion hpx

/-- C4 counterexample: with no provider configured, `generate_depth_map` on
a 1×1 image does raise — the local fallback's `ZeroDivisionError`
propagates through the chain, contradicting the claim that the chain never
raises for any input image. -/
theorem generate_depth_map_one_by_one_raises :
    generate_depth_map
      { replicateToken := false
        hfToken := false
        replicateDepth := Except.error "no token"
        hfDepth := Except.error "no token" } 1 1 =
      Except.error "float division by zero" := by
  rfl

/-- C4 (amended): providers are attempted strictly in rank order (Replicate
then Hugging Face), each only when its credential is configured; a raising
provider attempt is swallowed and the chain advances; when every configured
provider fails, or none is configured, the chain returns the local
fallback's outcome — and the chain never raises except when that fallback
is reached for a degenerate 1×1 image. -/
theorem generate_depth_map_chain (env : DepthEnv) (w h : Nat) :
    (∀ img, env.replicateToken = true → env.replicateDepth = Except.ok img →
      generate_depth_map env w h = Except.ok img) ∧
    (∀ img, attemptFails env.replicateToken env.replicateDepth →
      env.hfToken = true → env.hfDepth = Except.ok img →
      generate_depth_map env w h = Except.ok img) ∧
    (attemptFails env.replicateToken env.replicateDepth →
      attemptFails env.hfToken env.hfDepth →
      generate_depth_map env w h = generate_fallback_depth w h) ∧
    (¬ (w = 1 ∧ h = 1) → ∃ img, generate_depth_map env w h = Except.ok img) := by
  obtain ⟨rt, ht, rd, hd⟩ := env
  refine ⟨?_, ?_, ?_, ?_⟩
  · rintro img rfl rfl
    rfl
  · rintro img hfail rfl rfl
    rcases hfail with hfalse | ⟨e, herr⟩
    · subst hfalse
      cases rd <;> rfl
    · subst herr
      cases rt <;> rfl
  · rintro hfail1 hfail2
    simp only [attemptFails] at hfail1 hfail2
    rcases rd with e1 | i1 <;> rcases hd with e2 | i2 <;> cases rt <;> cases ht <;>
      first
        | rfl
        | simp_all
  · intro hne
    cases rt <;> cases ht <;> rcases rd with e1 | img1 <;> rcases hd with e2 | img2 <;>
      first
        | exact ⟨_, rfl⟩
        | exact ⟨fallbackDepthValue w h, by
            simp only [generate_depth_map]
            exact generate_fallback_depth_ok w h hne⟩

/-- C4 witness: in the pure-fallback configuration on a 2×2 image, the
chain returns the local fallback outcome and succeeds. -/
theorem generate_depth_map_chain_witness :
    generate_depth_map
      { replicateToken := false
        hfToken := false
        replicateDepth := Except.error "no token"
        hfDepth := Except.error "no token" } 2 2 =
      generate_fallback_depth 2 2 :=
  (generate_depth_map_chain
    { replicateToken := false
      hfToken := false
      replicateDepth := Except.error "no token"
      hfDepth := Except.error "no token" } 2 2).2.2.1
    (Or.inl rfl) (Or.inl rfl)

/-- C5: `classify_image` returns Landscape whenever the aspect ratio
`width / height` is strictly greater than 1.5 and Object whenever it is
strictly less than 0.75 — in both cases for every provider configuration
and provider behaviour, so no provider is consulted — and in the ambiguous
band with no provider credential configured it returns the Object
default. -/
theorem classify_image_aspect_rule (hfToken : Bool)
    (hfClassify : Except String InputType) (w h : Nat) (hh : 0 < h) :
    ((w : ℚ) / (h : ℚ) > 1.5 →
      classify_image hfToken hfClassify w h = InputType.landscape) ∧
    ((w : ℚ) / (h : ℚ) < 0.75 →
      classify_image hfToken hfClassify w h = InputType.object) ∧
    (0.75 ≤ (w : ℚ) / (h : ℚ) → (w : ℚ) / (h : ℚ) ≤ 1.5 → hfToken = false →
      classify_image hfToken hfClassify w h = InputType.object) := by
  refine ⟨fun hgt => ?_, fun hlt => ?_, fun hge hle htok => ?_⟩
  · simp only [classify_image]
    rw [if_pos hgt]
  · simp only [classify_image]
    rw [if_neg (by linarith), if_pos hlt]
  · subst htok
    simp only [classify_image]
    rw [if_neg (by linarith), if_neg (by linarith)]
    simp

/-- C5 witness: a 100×50 image (ratio 2.0) classifies Landscape with no
provider configured, a 50×100 image (ratio 0.5) classifies Object, and a
100×100 image (ratio 1.0, ambiguous) defaults to Object. -/
theorem classify_image_aspect_rule_witness :
    classify_image false (Except.error "no token") 100 50 =
        InputType.landscape ∧
    classify_image false (Except.error "no token") 50 100 =
        InputType.object ∧
    classify_image false (Except.error "no token") 100 100 =
        InputType.object :=
  ⟨(classify_image_aspect_rule false (Except.error "no token") 100 50
      (by norm_num)).1 (by norm_num),
   (classify_image_aspect_rule false (Except.error "no token") 50 100
      (by norm_num)).2.1 (by norm_num),
   (classify_image_aspect_rule false (Except.error "no token") 100 100
      (by norm_num)).2.2 (by norm_num) (by norm_num) rfl⟩

/-- C7: the fallback mask sets pixel `(x, y)` to 255 exactly when
`((x - cx) / (0.4 w))² + ((y - cy) / (0.4 h))² ≤ 1` for the integer centre
`(cx, cy) = (w / 2, h / 2)`, and to 0 otherwise; on a 100×100 image the
exact-centre pixel is 255 and the top-left corner pixel is 0. -/
theorem fallback_mask_formula (w h x y : Nat) (hw : 1 ≤ w) (hh : 1 ≤ h)
    (hx : x < w) (hy : y < h) :
    (generate_fallback_mask w h x y = 255 ↔
      (((x : ℚ) - (w / 2 : Nat)) / ((w : ℚ) * 0.4)) ^ 2 +
        (((y : ℚ) - (h / 2 : Nat)) / ((h : ℚ) * 0.4)) ^ 2 ≤ 1) ∧
    (generate_fallback_mask w h x y = 255 ∨
      generate_fallback_mask w h x y = 0) ∧
    generate_fallback_mask 100 100 50 50 = 255 ∧
    generate_fallback_mask 100 100 0 0 = 0 := by
  refine ⟨?_, ?_, ?_, ?_⟩
  · simp only [generate_fallback_mask, fallbackMaskValue, pow_two]
    split_ifs with hc
    · exact iff_of_true rfl hc
    · exact iff_of_false (by norm_num) hc
  · simp only [generate_fallback_mask, fallbackMaskValue]
    split_ifs with hc
    · exact Or.inl rfl
    · exact Or.inr rfl
  · simp only [generate_fallback_mask, fallbackMaskValue]
    norm_num
  · simp only [generate_fallback_mask, fallbackMaskValue]
    norm_num

/-- C7 witness: concrete pixels of the 100×100 fallback mask — the centre
pixel is inside the ellipse, the corner pixel outside. -/
theorem fallback_mask_formula_witness :
    (generate_fallback_mask 100 100 50 50 = 255 ∨
      generate_fallback_mask 100 100 50 50 = 0) ∧
    generate_fallback_mask 100 100 50 50 = 255 ∧
    generate_fallback_mask 100 100 0 0 = 0 :=
  ⟨(fallback_mask_formula 100 100 50 50 (by norm_num) (by norm_num)
      (by norm_num) (by norm_num)).2.1,
   (fallback_mask_formula 100 100 50 50 (by norm_num) (by norm_num)
      (by norm_num) (by norm_num)).2.2.1,
   (fallback_mask_formula 100 100 50 50 (by norm_num) (by norm_num)
      (by norm_num) (by norm_num)).2.2.2⟩

/-- C10: `update_job` is frame-precise — every field whose argument is
`none` keeps its previous value (so a `none` argument can never clear a
previously set status, input type, progress, error or outputs), the
identity columns are never touched, and a call in which every updatable
field is `none` returns `false` and leaves the record entirely unchanged,
`updated_at` included. -/
theorem update_job_frame (job : JobRecord) (s : Option JobStatus)
    (it : Option InputType) (p : Option Int) (e : Option String)
    (o : Option (List (String × String))) (now : String) :
    (s = none → ((update_job job s it p e o now).1).status = job.status) ∧
    (it = none →
      ((update_job job s it p e o now).1).input_type = job.input_type) ∧
    (p = none → ((update_job job s it p e o now).1).progress = job.progress) ∧
    (e = none → ((update_job job s it p e o now).1).error = job.error) ∧
    (o = none → ((update_job job s it p e o now).1).outputs = job.outputs) ∧
    (((update_job job s it p e o now).1).id = job.id ∧
      ((update_job job s it p e o now).1).created_at = job.created_at ∧
      ((update_job job s it p e o now).1).original_filename =
        job.original_filename) ∧
    (s = none → it = none → p = none → e = none → o = none →
      update_job job s it p e o now = (job, false)) := by
  simp only [update_job]
  split_ifs with hall
  · obtain ⟨hs, hit, hp, he, ho⟩ := hall
    subst hs hit hp he ho
    simp
  · refine ⟨?_, ?_, ?_, ?_, ?_, ⟨rfl, rfl, rfl⟩, ?_⟩
    · rintro rfl
      simp
    · rintro rfl
      simp
    · rintro rfl
      simp
    · rintro rfl
      simp
    · rintro rfl
      simp
    · rintro rfl rfl rfl rfl rfl
      exact absurd ⟨rfl, rfl, rfl, rfl, rfl⟩ hall

/-- C10 witness: the all-`none` call on a freshly created job changes
nothing and reports `false`. -/
theorem update_job_frame_witness :
    update_job (create_job "j1" "photo.png" none "t0")
        none none none none none "t1" =
      (create_job "j1" "photo.png" none "t0", false) :=
  (update_job_frame (create_job "j1" "photo.png" none "t0")
      none none none none none "t1").2.2.2.2.2.2 rfl rfl rfl rfl rfl

theorem process_image_cases (env : PipelineEnv) :
    (env.uploadExists = false ∧
      process_image env =
        { writes := [startWrite,
            failWrite ("Upload not found: " ++ env.upload_path)]
          assets := []
          outcome := Except.error ("Upload not found: " ++ env.upload_path) }) ∨
    (env.uploadExists = true ∧ ∃ e,
      generate_depth_map env.depthEnv env.width env.height = Except.error e ∧
      process_image env =
        { writes := [startWrite, progressWrite 20,
            typeWrite (effectiveInputType env), progressWrite 40, failWrite e]
          assets := []
          outcome := Except.error e }) ∨
    (env.uploadExists = true ∧
      (∃ img, generate_depth_map env.depthEnv env.width env.height =
        Except.ok img) ∧
      effectiveInputType env = InputType.object ∧
      process_image env =
        { writes := [startWrite, progressWrite 20,
            typeWrite (effectiveInputType env), progressWrite 40,
            progressWrite 60, progressWrite 80,
            completeWrite [("color", env.colorAssetId),
              ("depth", env.depthAssetId), ("mask", env.maskAssetId)]]
          assets := ["color", "depth", "mask"]
          outcome := Except.ok () }) ∨
    (env.uploadExists = true ∧
      (∃ img, generate_depth_map env.depthEnv env.width env.height =
        Except.ok img) ∧
      effectiveInputType env ≠ InputType.object ∧
      process_image env =
        { writes := [startWrite, progressWrite 20,
            typeWrite (effectiveInputType env), progressWrite 40,
            progressWrite 60,
            completeWrite [("color", env.colorAssetId),
              ("depth", env.depthAssetId)]]
          assets := ["color", "depth"]
          outcome := Except.ok () }) := by
  by_cases hue : env.uploadExists = false
  · exact Or.inl ⟨hue, by simp [process_image, hue]⟩
  · have hue' : env.uploadExists = true := by
      revert hue
      cases env.uploadExists <;> simp
    refine Or.inr ?_
    cases hdm : generate_depth_map env.depthEnv env.width env.height with
    | error e =>
      exact Or.inl ⟨hue', e, rfl, by simp [process_image, hue', hdm]⟩
    | ok img =>
      refine Or.inr ?_
      by_cases ht : effectiveInputType env = InputType.object
      · exact Or.inl ⟨hue', ⟨img, rfl⟩, ht, by simp [process_image, hue', hdm, ht]⟩
      · exact Or.inr ⟨hue', ⟨img, rfl⟩, ht, by simp [process_image, hue', hdm, ht]⟩

/-- C1: in every run of `process_image` the progress values written to the
ledger form one of the prefixes cut by the two possible failure points of
the sequence 10, 20, 30, 40, 60, (80), 100 — the failure-path write touches
no progress — and replaying the full write sequence through `update_job`
onto the freshly created job record yields a non-decreasing progress value
over the job's whole lifetime. -/
theorem process_image_progress_monotone (env : PipelineEnv)
    (job_id filename now now2 : String) (hint0 : Option InputType) :
    ((((process_image env).writes.filterMap fun u => u.progress) = [10]) ∨
     (((process_image env).writes.filterMap fun u => u.progress) =
        [10, 20, 30, 40]) ∨
     (((process_image env).writes.filterMap fun u => u.progress) =
        [10, 20, 30, 40, 60, 100]) ∨
     (((process_image env).writes.filterMap fun u => u.progress) =
        [10, 20, 30, 40, 60, 80, 100])) ∧
    List.Chain' (fun p q => p ≤ q)
      ((replayRecords (create_job job_id filename hint0 now)
        (process_image env).writes now2).map fun r => r.progress) := by
  rcases process_image_cases env with ⟨hue, heq⟩ | ⟨hue, e, hdm, heq⟩ |
    ⟨hue, himg, ht, heq⟩ | ⟨hue, himg, ht, heq⟩ <;>
    rw [heq] <;>
    refine ⟨by simp [startWrite, progressWrite, typeWrite, failWrite,
      completeWrite], ?_⟩ <;>
    simp [replayRecords, applyWrite, update_job, create_job, startWrite,
      progressWrite, typeWrite, failWrite, completeWrite]

/-- C2: every run of `process_image` that returns normally ends with the
completion write, whose outputs map has exactly the keys color and depth —
plus mask exactly when the classified/hinted input type is Object — and the
assets created are color and depth unconditionally, plus mask exactly for
Object inputs. -/
theorem process_image_completed_outputs (env : PipelineEnv)
    (hok : (process_image env).outcome = Except.ok ()) :
    (effectiveInputType env = InputType.object →
      (process_image env).writes.getLast? = some
        (completeWrite [("color", env.colorAssetId),
          ("depth", env.depthAssetId), ("mask", env.maskAssetId)]) ∧
      (process_image env).assets = ["color", "depth", "mask"]) ∧
    (effectiveInputType env ≠ InputType.object →
      (process_image env).writes.getLast? = some
        (completeWrite [("color", env.colorAssetId),
          ("depth", env.depthAssetId)]) ∧
      (process_image env).assets = ["color", "depth"]) := by
  rcases process_image_cases env with ⟨hue, heq⟩ | ⟨hue, e, hdm, heq⟩ |
    ⟨hue, himg, ht, heq⟩ | ⟨hue, himg, ht, heq⟩
  · rw [heq] at hok
    exact absurd hok (by simp)
  · rw [heq] at hok
    exact absurd hok (by simp)
  · rw [heq]
    exact ⟨fun _ => ⟨by simp, rfl⟩, fun hcontra => absurd ht hcontra⟩
  · rw [heq]
    exact ⟨fun hcontra => absurd hcontra ht, fun _ => ⟨by simp, rfl⟩⟩

/-- C2 witness: a 2×2 image hinted Landscape completes with exactly the
color and depth outputs and assets. -/
theorem process_image_completed_outputs_witness :
    (process_image (envNoProviders true 2 2 (some InputType.landscape))).writes.getLast? =
        some (completeWrite [("color", "color-id"), ("depth", "depth-id")]) ∧
    (process_image (envNoProviders true 2 2 (some InputType.landscape))).assets =
        ["color", "depth"] :=
  (process_image_completed_outputs
      (envNoProviders true 2 2 (some InputType.landscape)) (by rfl)).2
    (by simp [effectiveInputType, envNoProviders])

/-- C3: every run of `process_image` that re-raises an exception has, as its
final ledger write, the failure write carrying status Failed and exactly
that exception's text — touching neither progress nor outputs, so progress
stays at the last value reached — no asset is created, and in the
missing-upload case the error is the "Upload not found" text and the only
progress value ever written is 10. -/
theorem process_image_failure_terminal (env : PipelineEnv) (e : String)
    (herr : (process_image env).outcome = Except.error e) :
    (process_image env).writes.getLast? = some (failWrite e) ∧
    (process_image env).assets = [] ∧
    (env.uploadExists = false →
      e = "Upload not found: " ++ env.upload_path ∧
      ((process_image env).writes.filterMap fun u => u.progress) = [10]) := by
  rcases process_image_cases env with ⟨hue, heq⟩ | ⟨hue, e', hdm, heq⟩ |
    ⟨hue, himg, ht, heq⟩ | ⟨hue, himg, ht, heq⟩
  · rw [heq] at herr ⊢
    simp only [Except.error.injEq] at herr
    subst herr
    exact ⟨by simp, rfl, fun _ => ⟨rfl, by simp [startWrite, failWrite]⟩⟩
  · rw [heq] at herr ⊢
    simp only [Except.error.injEq] at herr
    subst herr
    refine ⟨by simp, rfl, fun hcontra => ?_⟩
    rw [hue] at hcontra
    exact Bool.noConfusion hcontra
  · rw [heq] at herr
    exact absurd herr (by simp)
  · rw [heq] at herr
    exact absurd herr (by simp)

/-- C3 witness: a run referencing a missing upload fails with the
"Upload not found" error as its terminal write, and its only progress write
is 10. -/
theorem process_image_failure_terminal_witness :
    (process_image (envNoProviders false 2 2 none)).writes.getLast? =
        some (failWrite ("Upload not found: " ++ "/data/uploads/j1/photo.png")) ∧
    (process_image (envNoProviders false 2 2 none)).assets = [] ∧
    ("Upload not found: " ++ "/data/uploads/j1/photo.png" =
        "Upload not found: " ++ (envNoProviders false 2 2 none).upload_path ∧
      ((process_image (envNoProviders false 2 2 none)).writes.filterMap
        fun u => u.progress) = [10]) :=
  have h := process_image_failure_terminal (envNoProviders false 2 2 none)
    ("Upload not found: " ++ "/data/uploads/j1/photo.png") (by rfl)
  ⟨h.1, h.2.1, h.2.2 rfl⟩

theorem ceilSqrtDiv_le_iff (a b n : Nat) (hb : 0 < b) :
    ceilSqrtDiv a b ≤ n ↔ a ≤ b * n ^ 2 := by
  have hex : ∃ m, a ≤ b * m ^ 2 :=
    ⟨a, le_trans (Nat.le_self_pow (by norm_num) a)
      (Nat.le_mul_of_pos_left _ hb)⟩
  unfold ceilSqrtDiv
  rw [dif_pos hb]
  constructor
  · intro hle
    exact le_trans (Nat.find_spec hex)
      (Nat.mul_le_mul (le_refl b) (Nat.pow_le_pow_left hle 2))
  · intro hp
    exact Nat.find_le hp

theorem ceilSqrtDiv_eq_ceil (a b : Nat) (hb : 0 < b) :
    (ceilSqrtDiv a b : Int) = ⌈Real.sqrt a / Real.sqrt b⌉ := by
  have hbR : (0 : ℝ) < Real.sqrt b :=
    Real.sqrt_pos.mpr (by exact_mod_cast hb)
  have key : ∀ n : Nat, Real.sqrt a / Real.sqrt b ≤ (n : ℝ) ↔ a ≤ b * n ^ 2 := by
    intro n
    rw [div_le_iff₀ hbR]
    constructor
    · intro hle
      have h3 : Real.sqrt a ^ 2 ≤ ((n : ℝ) * Real.sqrt b) ^ 2 :=
        pow_le_pow_left₀ (Real.sqrt_nonneg _) hle 2
      rw [Real.sq_sqrt (by positivity), mul_pow,
        Real.sq_sqrt (by positivity)] at h3
      have h4 : (a : ℝ) ≤ (b : ℝ) * (n : ℝ) ^ 2 := by linarith
      exact_mod_cast h4
    · intro hle
      have h2 : Real.sqrt a ≤ Real.sqrt ((b : ℝ) * (n : ℝ) ^ 2) :=
        Real.sqrt_le_sqrt (by exact_mod_cast hle)
      rw [Real.sqrt_mul (by positivity), Real.sqrt_sq (by positivity)] at h2
      linarith
  have hchar : ∀ n : Nat,
      (⌈Real.sqrt a / Real.sqrt b⌉ ≤ (n : Int)) ↔ (ceilSqrtDiv a b ≤ n) := by
    intro n
    rw [Int.ceil_le]
    have hcast : ((n : Int) : ℝ) = (n : ℝ) := by push_cast; rfl
    rw [hcast, key n, ← ceilSqrtDiv_le_iff a b n hb]
  have h1 : ⌈Real.sqrt a / Real.sqrt b⌉ ≤ (ceilSqrtDiv a b : Int) :=
    (hchar _).mpr le_rfl
  have h0 : (0 : Int) ≤ ⌈Real.sqrt a / Real.sqrt b⌉ :=
    Int.ceil_nonneg (by positivity)
  have h2 : ceilSqrtDiv a b ≤ ⌈Real.sqrt a / Real.sqrt b⌉.toNat :=
    (hchar _).mp (by rw [Int.toNat_of_nonneg h0])
  omega

theorem distSq_le_maxDistSq (w h x y : Nat) (hx : x < w) (hy : y < h) :
    distSq w h x y ≤ maxDistSq w h := by
  unfold distSq maxDistSq
  have h1 : ((x : Int) - (w / 2 : Nat)).natAbs ≤ w / 2 := by omega
  have h2 : ((y : Int) - (h / 2 : Nat)).natAbs ≤ h / 2 := by omega
  exact Nat.add_le_add (Nat.pow_le_pow_left h1 2) (Nat.pow_le_pow_left h2 2)

/-- C6 (amended): for every image of width `w ≥ 1` and height `h ≥ 1` other
than the degenerate 1×1 case (where the code raises a division-by-zero
error instead), `generate_fallback_depth` produces the full pixel grid, and
each in-range pixel value is `255 × (1 − d/D)` truncated to an integer with
`d` the Euclidean distance from the integer centre and `D` the
centre-to-corner distance; the value lies in `[0, 255]`, so truncation is
the floor; on a 100×100 image the exact-centre pixel is 255 and the corner
pixel is 0. -/
theorem fallback_depth_formula (w h x y : Nat) (hw : 1 ≤ w) (hh : 1 ≤ h)
    (hne : ¬ (w = 1 ∧ h = 1)) (hx : x < w) (hy : y < h) :
    generate_fallback_depth w h = Except.ok (fallbackDepthValue w h) ∧
    fallbackDepthValue w h x y =
      ⌊(255 : ℝ) * (1 - Real.sqrt (distSq w h x y) /
        Real.sqrt (maxDistSq w h))⌋ ∧
    0 ≤ fallbackDepthValue w h x y ∧ fallbackDepthValue w h x y ≤ 255 ∧
    fallbackDepthValue 100 100 50 50 = 255 ∧
    fallbackDepthValue 100 100 0 0 = 0 := by
  have hb : 0 < maxDistSq w h := by
    rcases Nat.eq_zero_or_pos (maxDistSq w h) with h0 | hpos
    · rw [maxDistSq_eq_zero_iff] at h0
      exact absurd ⟨by omega, by omega⟩ hne
    · exact hpos
  have hab : distSq w h x y ≤ maxDistSq w h := distSq_le_maxDistSq w h x y hx hy
  have hcle : ceilSqrtDiv (255 ^ 2 * distSq w h x y) (maxDistSq w h) ≤ 255 :=
    (ceilSqrtDiv_le_iff _ _ 255 hb).mpr (by nlinarith)
  refine ⟨generate_fallback_depth_ok w h hne, ?_, ?_, ?_, ?_, ?_⟩
  · simp only [fallbackDepthValue]
    set a := distSq w h x y with ha
    set b := maxDistSq w h with hbdef
    have h25 : Real.sqrt ((255 ^ 2 * a : Nat) : ℝ) = 255 * Real.sqrt a := by
      push_cast
      rw [Real.sqrt_mul (by positivity),
        show (65025 : ℝ) = (255 : ℝ) ^ 2 by norm_num,
        Real.sqrt_sq (by norm_num)]
    have hstep : (255 : ℝ) * (1 - Real.sqrt a / Real.sqrt b) =
        -(Real.sqrt ((255 ^ 2 * a : Nat) : ℝ) / Real.sqrt b) +
          ((255 : Int) : ℝ) := by
      rw [h25]
      push_cast
      ring
    rw [hstep, Int.floor_add_int, Int.floor_neg, ← ceilSqrtDiv_eq_ceil _ _ hb]
    ring
  · simp only [fallbackDepthValue]
    omega
  · simp only [fallbackDepthValue]
    omega
  · have e1 : distSq 100 100 50 50 = 0 := by decide
    have e2 : maxDistSq 100 100 = 5000 := by decide
    have h0 : ceilSqrtDiv 0 5000 = 0 :=
      Nat.le_zero.mp ((ceilSqrtDiv_le_iff 0 5000 0 (by norm_num)).mpr
        (by norm_num))
    simp only [fallbackDepthValue]
    rw [e1, e2]
    norm_num [h0]
  · have e1 : distSq 100 100 0 0 = 5000 := by decide
    have e2 : maxDistSq 100 100 = 5000 := by decide
    have hle : ceilSqrtDiv (255 ^ 2 * 5000) 5000 ≤ 255 :=
      (ceilSqrtDiv_le_iff _ _ 255 (by norm_num)).mpr (by norm_num)
    have hge : ¬ (ceilSqrtDiv (255 ^ 2 * 5000) 5000 ≤ 254) := by
      intro hcon
      have hcon2 := (ceilSqrtDiv_le_iff _ _ 254 (by norm_num)).mp hcon
      norm_num at hcon2
    simp only [fallbackDepthValue]
    rw [e1, e2]
    omega

/-- C6 witness: the 100×100 fallback depth image is produced successfully,
with centre pixel 255 and corner pixel 0. -/
theorem fallback_depth_formula_witness :
    generate_fallback_depth 100 100 = Except.ok (fallbackDepthValue 100 100) ∧
    fallbackDepthValue 100 100 50 50 = 255 ∧
    fallbackDepthValue 100 100 0 0 = 0 :=
  have hf := fallback_depth_formula 100 100 0 0 (by decide) (by decide)
    (by decide) (by decide) (by decide)
  ⟨hf.1, hf.2.2.2.2.1, hf.2.2.2.2.2⟩

end ParallaxPortal
